import Mathlib

/-!
# Verification of the charlie-renderer Vulkan bootstrap (src/renderer.rs)

A shallow embedding of the renderer component of the repository:
device selection, queue-family resolution, swapchain construction, the
per-frame render cycle, and teardown. Every native API interaction is
modelled as an explicit oracle value (an `Except` result supplied by the
environment), so each embedded function is a pure, executable Lean
function whose control flow mirrors the Rust source statement by
statement. Rust `?` propagation becomes an `err` outcome, and Rust
`unwrap`/`expect`/indexing panics become a distinct `panicked` outcome.
-/

set_option autoImplicit false

namespace CharlieRenderer

/-! ## Vulkan-side data model (the fragments the renderer inspects) -/

/-- Opaque device handle (`vk::PhysicalDevice`). -/
abbrev PhysicalDevice := Nat

/-- Opaque image handle (`vk::Image`). -/
abbrev Image := Nat

/-- Opaque image-view handle (`vk::ImageView`). -/
abbrev ImageView := Nat

/-- The device kinds from `vk::PhysicalDeviceType` that the selector can see. -/
inductive PhysicalDeviceType where
  | DISCRETE_GPU
  | INTEGRATED_GPU
  | VIRTUAL_GPU
  | CPU
  | OTHER
  deriving DecidableEq

/-- The property record of `vk::PhysicalDeviceProperties`, restricted to the
field the source reads (`device_type`). -/
structure PhysicalDeviceProperties where
  device_type : PhysicalDeviceType
  deriving DecidableEq

/-- The two capability bits of `vk::QueueFlags` that the source tests
(`GRAPHICS` and `TRANSFER`); the other bits of the mask are never read. -/
structure QueueFlags where
  graphics : Bool
  transfer : Bool
  deriving DecidableEq

/-- The fields of `vk::QueueFamilyProperties` read by the source. -/
structure QueueFamilyProperties where
  queue_count : Nat
  queue_flags : QueueFlags
  deriving DecidableEq

/-- The `QueueFamilyIndices` struct of renderer.rs. -/
structure QueueFamilyIndices where
  graphics : Nat
  transfer : Nat
  deriving DecidableEq

/-- Result codes a native call can fail with (`vk::Result` error values). -/
inductive VkErr where
  | TIMEOUT
  | SURFACE_LOST
  | DEVICE_LOST
  | OUT_OF_MEMORY
  deriving DecidableEq

/-- Outcome of a Rust function in the embedding: normal return (`ok`),
error propagation through `?` (`err`), or a process abort through
`unwrap`/`expect`/out-of-bounds indexing (`panicked`). -/
inductive RustOutcome (ε α : Type) where
  | ok (a : α)
  | err (e : ε)
  | panicked
  deriving DecidableEq

/-! ## Queue Resolver: `find_queue_family_indices` (renderer.rs lines 92-130)

The surface-support query
`surface_fn.get_physical_device_surface_support(pd, index, surface)` is
modelled as a total predicate `present : Nat → Bool` giving the reported
support for each family index; no claim concerns the error path of that
query. -/

/-- The body of the `for (index, qfam) in ...enumerate()` loop of
`find_queue_family_indices`, carrying the two mutable candidates
`(graphics_qf_index_opt, transfer_qf_index_opt)`. -/
def findQFLoop (present : Nat → Bool) :
    Nat → List QueueFamilyProperties → Option Nat × Option Nat → Option Nat × Option Nat
  | _, [], acc => acc
  | index, qfam :: rest, (g, t) =>
    if 0 < qfam.queue_count then
      findQFLoop present (index + 1) rest
        ((if qfam.queue_flags.graphics && present index then some index else g),
         (if qfam.queue_flags.transfer && (t.isNone || !qfam.queue_flags.graphics)
          then some index else t))
    else
      findQFLoop present (index + 1) rest (g, t)

/-- `find_queue_family_indices`: run the loop over the enumerated family
list; the two final `unwrap` calls panic (`none`) when a role is
unresolved. -/
def find_queue_family_indices (present : Nat → Bool)
    (families : List QueueFamilyProperties) : Option QueueFamilyIndices :=
  match findQFLoop present 0 families (none, none) with
  | (some g, some t) => some { graphics := g, transfer := t }
  | _ => none

/-! ### Specification-side descriptions of the selection policy

These definitions follow the words of the spec and of the claims, so that
the theorems compare the loop above against an independent description. -/

/-- `indexFrom n l` pairs each element of `l` with its index, starting at
`n` (the shape of the Rust `enumerate()` stream). -/
def indexFrom {α : Type} : Nat → List α → List (Nat × α)
  | _, [] => []
  | n, a :: l => (n, a) :: indexFrom (n + 1) l

/-- First-some choice on options (the effect of overwriting semantics read
off right to left). -/
def orElseO {α : Type} (a b : Option α) : Option α :=
  match a with
  | some x => some x
  | none => b

/-- A family is eligible for the graphics role: graphics bit and reported
presentation support (the words of the claim; the queue-count guard of the
source is a separate hypothesis, since every family enumerated by the API
reports at least one queue). -/
def graphicsEligible (present : Nat → Bool) (iq : Nat × QueueFamilyProperties) : Bool :=
  iq.2.queue_flags.graphics && present iq.1

/-- A dedicated transfer family: transfer bit set, graphics bit clear. -/
def dedicatedTransferFamily (iq : Nat × QueueFamilyProperties) : Bool :=
  iq.2.queue_flags.transfer && !iq.2.queue_flags.graphics

/-- A transfer-capable family: transfer bit set. -/
def transferCapableFamily (iq : Nat × QueueFamilyProperties) : Bool :=
  iq.2.queue_flags.transfer

/-- The first family index eligible for the graphics role. -/
def firstGraphicsEligibleIdx (present : Nat → Bool)
    (families : List QueueFamilyProperties) : Option Nat :=
  ((indexFrom 0 families).find? (graphicsEligible present)).map Prod.fst

/-- The last family index eligible for the graphics role. -/
def lastGraphicsEligibleIdx (present : Nat → Bool)
    (families : List QueueFamilyProperties) : Option Nat :=
  (((indexFrom 0 families).filter (graphicsEligible present)).getLast?).map Prod.fst

/-- The last dedicated-transfer family index. -/
def lastDedicatedTransferIdx (families : List QueueFamilyProperties) : Option Nat :=
  (((indexFrom 0 families).filter dedicatedTransferFamily).getLast?).map Prod.fst

/-- The first transfer-capable family index. -/
def firstTransferCapableIdx (families : List QueueFamilyProperties) : Option Nat :=
  ((indexFrom 0 families).find? transferCapableFamily).map Prod.fst

/-! ### Helper lemmas -/

theorem orElseO_some {α : Type} (x : α) (b : Option α) : orElseO (some x) b = some x := rfl

theorem orElseO_none {α : Type} (b : Option α) : orElseO none b = b := rfl

theorem orElseO_none_right {α : Type} (a : Option α) : orElseO a none = a := by
  cases a <;> rfl

theorem orElseO_assoc {α : Type} (a b c : Option α) :
    orElseO (orElseO a b) c = orElseO a (orElseO b c) := by
  cases a <;> rfl

theorem orElseO_map {α β : Type} (f : α → β) (a b : Option α) :
    (orElseO a b).map f = orElseO (a.map f) (b.map f) := by
  cases a <;> rfl

theorem getLast?_cons_orElse {α : Type} (a : α) (l : List α) :
    (a :: l).getLast? = orElseO l.getLast? (some a) := by
  induction l generalizing a with
  | nil => rfl
  | cons b m ih =>
    rw [List.getLast?_cons_cons, ih b]
    cases m.getLast? <;> rfl

theorem mem_of_getLast?_eq {α : Type} {l : List α} {a : α}
    (h : l.getLast? = some a) : a ∈ l := by
  induction l with
  | nil => cases h
  | cons b m ih =>
    rw [getLast?_cons_orElse] at h
    cases hm : m.getLast? with
    | none =>
      rw [hm] at h
      cases h
      exact List.mem_cons_self _ _
    | some c =>
      rw [hm] at h
      cases h
      exact List.mem_cons_of_mem _ (ih hm)

theorem indexFrom_mem_get? {α : Type} {l : List α} :
    ∀ {n i : Nat} {a : α}, (i, a) ∈ indexFrom n l → n ≤ i ∧ l.get? (i - n) = some a := by
  induction l with
  | nil => intro n i a h; cases h
  | cons b m ih =>
    intro n i a h
    rw [indexFrom] at h
    rcases List.mem_cons.mp h with h | h
    · cases h
      exact ⟨Nat.le_refl _, by simp [List.get?]⟩
    · obtain ⟨hle, hget⟩ := ih h
      refine ⟨Nat.le_of_succ_le hle, ?_⟩
      have hin : i - n = (i - (n + 1)) + 1 := by omega
      rw [hin]
      simpa [List.get?] using hget

theorem mem_indexFrom_of_mem {α : Type} {l : List α} {a : α} (h : a ∈ l) :
    ∀ n : Nat, ∃ i, (i, a) ∈ indexFrom n l := by
  induction l with
  | nil => cases h
  | cons b m ih =>
    intro n
    rcases List.mem_cons.mp h with h | h
    · exact ⟨n, by rw [h, indexFrom]; exact List.mem_cons_self _ _⟩
    · obtain ⟨i, hi⟩ := ih h (n + 1)
      exact ⟨i, by rw [indexFrom]; exact List.mem_cons_of_mem _ hi⟩

/-- The graphics candidate computed by the loop: every eligible family
overwrites the accumulator, so the result is the last eligible index (or
the incoming accumulator when none is eligible). -/
theorem findQFLoop_fst_eq (present : Nat → Bool) :
    ∀ (l : List QueueFamilyProperties) (i : Nat) (g t : Option Nat),
      (∀ q ∈ l, 0 < q.queue_count) →
      (findQFLoop present i l (g, t)).1
        = orElseO ((((indexFrom i l).filter (graphicsEligible present)).getLast?).map Prod.fst) g
  | [], i, g, t, _ => by
    simp [findQFLoop, indexFrom, orElseO]
  | q :: rest, i, g, t, hc => by
    have hq : 0 < q.queue_count := hc q (List.mem_cons_self q rest)
    have hrest : ∀ x ∈ rest, 0 < x.queue_count := fun x hx => hc x (List.mem_cons_of_mem q hx)
    simp only [findQFLoop]
    rw [if_pos hq, findQFLoop_fst_eq present rest (i + 1) _ _ hrest]
    simp only [indexFrom, List.filter_cons]
    cases hel : graphicsEligible present (i, q) with
    | true =>
      have hcond : (q.queue_flags.graphics && present i) = true := hel
      simp [hcond, getLast?_cons_orElse, orElseO_map, orElseO_assoc, orElseO_some]
    | false =>
      have hcond : (q.queue_flags.graphics && present i) = false := hel
      simp [hcond, hel]

/-- The transfer candidate computed by the loop: a dedicated-transfer
family always overwrites, while a combined graphics-and-transfer family is
taken only when the accumulator is still empty; the result is therefore
the last dedicated-transfer index, falling back to the incoming
accumulator and then to the first transfer-capable index. -/
theorem findQFLoop_snd_eq (present : Nat → Bool) :
    ∀ (l : List QueueFamilyProperties) (i : Nat) (g t : Option Nat),
      (∀ q ∈ l, 0 < q.queue_count) →
      (findQFLoop present i l (g, t)).2
        = orElseO ((((indexFrom i l).filter dedicatedTransferFamily).getLast?).map Prod.fst)
            (orElseO t (((indexFrom i l).find? transferCapableFamily).map Prod.fst))
  | [], i, g, t, _ => by
    cases t <;> simp [findQFLoop, indexFrom, orElseO]
  | q :: rest, i, g, t, hc => by
    have hq : 0 < q.queue_count := hc q (List.mem_cons_self q rest)
    have hrest : ∀ x ∈ rest, 0 < x.queue_count := fun x hx => hc x (List.mem_cons_of_mem q hx)
    simp only [findQFLoop]
    rw [if_pos hq, findQFLoop_snd_eq present rest (i + 1) _ _ hrest]
    simp only [indexFrom, List.filter_cons]
    cases htr : q.queue_flags.transfer with
    | false =>
      have hd : dedicatedTransferFamily (i, q) = false := by
        simp [dedicatedTransferFamily, htr]
      have hcap : transferCapableFamily (i, q) = false := by
        simp [transferCapableFamily, htr]
      have hu : (q.queue_flags.transfer && (t.isNone || !q.queue_flags.graphics)) = false := by
        simp [htr]
      simp [hd, hcap, hu, List.find?_cons_of_neg]
    | true =>
      cases hgr : q.queue_flags.graphics with
      | false =>
        have hd : dedicatedTransferFamily (i, q) = true := by
          simp [dedicatedTransferFamily, htr, hgr]
        have hcap : transferCapableFamily (i, q) = true := by
          simp [transferCapableFamily, htr]
        have hu : (q.queue_flags.transfer && (t.isNone || !q.queue_flags.graphics)) = true := by
          simp [htr, hgr]
        simp [hd, hcap, hu, List.find?_cons_of_pos, getLast?_cons_orElse, orElseO_map,
          orElseO_assoc, orElseO_some]
      | true =>
        have hd : dedicatedTransferFamily (i, q) = false := by
          simp [dedicatedTransferFamily, hgr]
        have hcap : transferCapableFamily (i, q) = true := by
          simp [transferCapableFamily, htr]
        cases t with
        | none =>
          have hu : (q.queue_flags.transfer && ((none : Option Nat).isNone || !q.queue_flags.graphics)) = true := by
            simp [htr]
          simp [hd, hcap, hu, List.find?_cons_of_pos, orElseO_none, orElseO_assoc, orElseO_some]
        | some j =>
          have hu : (q.queue_flags.transfer && ((some j).isNone || !q.queue_flags.graphics)) = false := by
            simp [htr, hgr]
          simp [hd, hcap, hu, List.find?_cons_of_pos, orElseO_assoc, orElseO_some]

/-! ### Claims C1 and C4: the Queue Resolver selection policy -/

/-- C1 (counterexample): with two families both advertising the graphics
bit and presentation support, the resolver selects index 1, not the first
eligible index 0 — the assignment in the loop overwrites earlier matches,
so the claimed first-match policy is false. -/
theorem C1_graphics_first_match_counterexample :
    (find_queue_family_indices (fun _ => true)
        [{ queue_count := 1, queue_flags := { graphics := true, transfer := false } },
         { queue_count := 1, queue_flags := { graphics := true, transfer := true } }]).map
        QueueFamilyIndices.graphics = some 1
    ∧ firstGraphicsEligibleIdx (fun _ => true)
        [{ queue_count := 1, queue_flags := { graphics := true, transfer := false } },
         { queue_count := 1, queue_flags := { graphics := true, transfer := true } }] = some 0
    ∧ (some 1 : Option Nat) ≠ some 0 := by
  exact ⟨rfl, rfl, by decide⟩

/-- C1 (amended): for every queue-family list (each enumerated family
reporting at least one queue, as the API guarantees), the resolver selects
for the graphics role the LAST family in index order that both advertises
the graphics bit and reports presentation support: every later eligible
family replaces an earlier match. -/
theorem C1_graphics_selects_last_eligible (present : Nat → Bool)
    (families : List QueueFamilyProperties)
    (hcount : ∀ q ∈ families, 0 < q.queue_count)
    (qfi : QueueFamilyIndices)
    (h : find_queue_family_indices present families = some qfi) :
    some qfi.graphics = lastGraphicsEligibleIdx present families := by
  have hfst := findQFLoop_fst_eq present families 0 none none hcount
  unfold find_queue_family_indices at h
  cases hP : findQFLoop present 0 families (none, none) with
  | mk gOpt tOpt =>
    rw [hP] at h hfst
    cases gOpt with
    | none => cases tOpt <;> simp at h
    | some gv =>
      cases tOpt with
      | none => simp at h
      | some tv =>
        simp only [Option.some.injEq] at h
        rw [← h]
        simpa [lastGraphicsEligibleIdx, orElseO_none_right] using hfst

/-- Witness for C1 (amended) at a concrete input: two eligible families,
the selection is index 1. -/
theorem C1_graphics_selects_last_eligible_witness :
    some (1 : Nat) = lastGraphicsEligibleIdx (fun _ => true)
      [{ queue_count := 1, queue_flags := { graphics := true, transfer := true } },
       { queue_count := 1, queue_flags := { graphics := true, transfer := false } }] :=
  C1_graphics_selects_last_eligible (fun _ => true)
    [{ queue_count := 1, queue_flags := { graphics := true, transfer := true } },
     { queue_count := 1, queue_flags := { graphics := true, transfer := false } }]
    (by decide) { graphics := 1, transfer := 0 } (by decide)

/-- C4: for every queue-family list (each family reporting at least one
queue) containing at least one family with the transfer bit, the transfer
candidate resolves to the last dedicated-transfer family (transfer bit,
no graphics bit), or, when no dedicated family exists, to the first
transfer-capable family; and whenever the resolver returns indices, the
transfer index denotes a family whose transfer bit is set. -/
theorem C4_transfer_selection (present : Nat → Bool)
    (families : List QueueFamilyProperties)
    (hcount : ∀ q ∈ families, 0 < q.queue_count)
    (hsome : ∃ q ∈ families, q.queue_flags.transfer = true) :
    (findQFLoop present 0 families (none, none)).2
      = orElseO (lastDedicatedTransferIdx families) (firstTransferCapableIdx families)
    ∧ ((findQFLoop present 0 families (none, none)).2).isSome = true
    ∧ (∀ qfi : QueueFamilyIndices, find_queue_family_indices present families = some qfi →
        some qfi.transfer
          = orElseO (lastDedicatedTransferIdx families) (firstTransferCapableIdx families)
        ∧ ∃ q, families.get? qfi.transfer = some q ∧ q.queue_flags.transfer = true) := by
  have hsnd := findQFLoop_snd_eq present families 0 none none hcount
  rw [orElseO_none] at hsnd
  have hchar : (findQFLoop present 0 families (none, none)).2
      = orElseO (lastDedicatedTransferIdx families) (firstTransferCapableIdx families) := by
    rw [hsnd]; rfl
  have hcap : (firstTransferCapableIdx families).isSome = true := by
    obtain ⟨q, hq, htr⟩ := hsome
    obtain ⟨i, hi⟩ := mem_indexFrom_of_mem hq 0
    cases hf : (indexFrom 0 families).find? transferCapableFamily with
    | none =>
      rw [List.find?_eq_none] at hf
      exact absurd htr (by simpa [transferCapableFamily] using hf _ hi)
    | some x => simp [firstTransferCapableIdx, hf]
  have hissome : ((findQFLoop present 0 families (none, none)).2).isSome = true := by
    rw [hchar]
    cases hD : lastDedicatedTransferIdx families with
    | none => rw [orElseO_none]; exact hcap
    | some d => rfl
  refine ⟨hchar, hissome, ?_⟩
  intro qfi h
  unfold find_queue_family_indices at h
  cases hP : findQFLoop present 0 families (none, none) with
  | mk gOpt tOpt =>
    rw [hP] at h hchar
    cases gOpt with
    | none => cases tOpt <;> simp at h
    | some gv =>
      cases tOpt with
      | none => simp at h
      | some tv =>
        simp only [Option.some.injEq] at h
        rw [← h]
        simp only at hchar
        refine ⟨hchar, ?_⟩
        cases hD : lastDedicatedTransferIdx families with
        | some d =>
          rw [hD, orElseO_some] at hchar
          cases hchar
          unfold lastDedicatedTransferIdx at hD
          rw [Option.map_eq_some'] at hD
          obtain ⟨⟨i, q⟩, hlast, hfst⟩ := hD
          cases hfst
          have hmem := mem_of_getLast?_eq hlast
          rw [List.mem_filter] at hmem
          obtain ⟨hin, hded⟩ := hmem
          have hget := (indexFrom_mem_get? hin).2
          simp only [Nat.sub_zero] at hget
          refine ⟨q, hget, ?_⟩
          have hded2 : q.queue_flags.transfer = true ∧ (!q.queue_flags.graphics) = true := by
            simpa [dedicatedTransferFamily] using hded
          exact hded2.1
        | none =>
          rw [hD, orElseO_none] at hchar
          unfold firstTransferCapableIdx at hchar
          rw [eq_comm, Option.map_eq_some'] at hchar
          obtain ⟨⟨i, q⟩, hfind, hfst⟩ := hchar
          cases hfst
          have hmem := List.mem_of_find?_eq_some hfind
          have hget := (indexFrom_mem_get? hmem).2
          simp only [Nat.sub_zero] at hget
          refine ⟨q, hget, ?_⟩
          have := List.find?_some hfind
          unfold transferCapableFamily at this
          exact this

/-- Witness for C4 at a concrete input: families `{graphics, transfer}`,
`{transfer}`, `{transfer}` — the transfer candidate is the last dedicated
family, index 2. -/
theorem C4_transfer_selection_witness :
    (findQFLoop (fun _ => true) 0
        [{ queue_count := 1, queue_flags := { graphics := true, transfer := true } },
         { queue_count := 1, queue_flags := { graphics := false, transfer := true } },
         { queue_count := 1, queue_flags := { graphics := false, transfer := true } }]
        (none, none)).2
      = orElseO
          (lastDedicatedTransferIdx
            [{ queue_count := 1, queue_flags := { graphics := true, transfer := true } },
             { queue_count := 1, queue_flags := { graphics := false, transfer := true } },
             { queue_count := 1, queue_flags := { graphics := false, transfer := true } }])
          (firstTransferCapableIdx
            [{ queue_count := 1, queue_flags := { graphics := true, transfer := true } },
             { queue_count := 1, queue_flags := { graphics := false, transfer := true } },
             { queue_count := 1, queue_flags := { graphics := false, transfer := true } }]) :=
  (C4_transfer_selection (fun _ => true)
    [{ queue_count := 1, queue_flags := { graphics := true, transfer := true } },
     { queue_count := 1, queue_flags := { graphics := false, transfer := true } },
     { queue_count := 1, queue_flags := { graphics := false, transfer := true } }]
    (by decide) (by decide)).1

/-! ## Device Selector: `find_physical_device` (renderer.rs lines 74-85) -/

/-- `find_physical_device`: the enumeration pairs each device handle with
its queried properties. A clone of the pair stream is searched for a
discrete GPU; on failure, `next()` on the untouched original stream
yields the first enumerated device; the final `expect` panics when the
enumeration is empty. An enumeration error propagates through `?`. -/
def find_physical_device
    (enum_result : Except VkErr (List (PhysicalDevice × PhysicalDeviceProperties))) :
    RustOutcome VkErr PhysicalDevice :=
  match enum_result with
  | .error e => .err e
  | .ok devices =>
    match devices.find? (fun pd => pd.2.device_type == PhysicalDeviceType.DISCRETE_GPU) with
    | some pd => .ok pd.1
    | none =>
      match devices.head? with
      | some pd => .ok pd.1
      | none => .panicked

theorem find?_eq_get_of_first {α : Type} (p : α → Bool) (l : List α) :
    ∀ (k : Nat) (hk : k < l.length), p (l.get ⟨k, hk⟩) = true →
      (∀ j (hj : j < k), p (l.get ⟨j, Nat.lt_trans hj hk⟩) = false) →
      l.find? p = some (l.get ⟨k, hk⟩) := by
  induction l with
  | nil => intro k hk; exact absurd hk (Nat.not_lt_zero k)
  | cons a m ih =>
    intro k hk hp hprev
    cases k with
    | zero =>
      have ha : p a = true := hp
      rw [List.find?_cons_of_pos _ ha]
      rfl
    | succ k' =>
      have h0 : p a = false := hprev 0 (Nat.succ_pos k')
      have hk' : k' < m.length := Nat.lt_of_succ_lt_succ hk
      rw [List.find?_cons_of_neg _ (by simp [h0])]
      have hp' : p (m.get ⟨k', hk'⟩) = true := hp
      have hprev' : ∀ j (hj : j < k'), p (m.get ⟨j, Nat.lt_trans hj hk'⟩) = false := by
        intro j hj
        exact hprev (j + 1) (Nat.succ_lt_succ hj)
      exact ih k' hk' hp' hprev'

/-- C7: for every non-empty enumerated device list the selector returns
the first discrete GPU when one exists and otherwise the first enumerated
device; an empty enumeration panics (the `expect`), which is fatal. -/
theorem C7_device_selection
    (devices : List (PhysicalDevice × PhysicalDeviceProperties)) :
    ((devices ≠ []) → (∀ x ∈ devices, x.2.device_type ≠ PhysicalDeviceType.DISCRETE_GPU) →
        ∃ d rest, devices = d :: rest ∧ find_physical_device (.ok devices) = .ok d.1)
    ∧ (∀ (k : Nat) (hk : k < devices.length),
        (devices.get ⟨k, hk⟩).2.device_type = PhysicalDeviceType.DISCRETE_GPU →
        (∀ j (hj : j < k),
          (devices.get ⟨j, Nat.lt_trans hj hk⟩).2.device_type ≠ PhysicalDeviceType.DISCRETE_GPU) →
        find_physical_device (.ok devices) = .ok ((devices.get ⟨k, hk⟩).1))
    ∧ find_physical_device (.ok []) = .panicked := by
  refine ⟨?_, ?_, rfl⟩
  · intro hne hnone
    cases devices with
    | nil => exact absurd rfl hne
    | cons d rest =>
      refine ⟨d, rest, rfl, ?_⟩
      have hfind : (d :: rest).find?
          (fun pd => pd.2.device_type == PhysicalDeviceType.DISCRETE_GPU) = none := by
        rw [List.find?_eq_none]
        intro x hx
        simp [hnone x hx]
      simp [find_physical_device, hfind]
  · intro k hk hdisc hprev
    have hfind := find?_eq_get_of_first
      (fun pd => pd.2.device_type == PhysicalDeviceType.DISCRETE_GPU) devices k hk
      (by simpa using hdisc)
      (by intro j hj; simpa using hprev j hj)
    simp [find_physical_device, hfind]

/-- Witness for C7 at a concrete input: the second device is the first
discrete GPU and is selected. -/
theorem C7_device_selection_witness :
    find_physical_device (.ok
      [(5, { device_type := PhysicalDeviceType.OTHER }),
       (7, { device_type := PhysicalDeviceType.DISCRETE_GPU })]) = .ok 7 :=
  (C7_device_selection
    [(5, { device_type := PhysicalDeviceType.OTHER }),
     (7, { device_type := PhysicalDeviceType.DISCRETE_GPU })]).2.1
    1 (by decide) (by decide) (by decide)

/-! ## Swapchain image count (renderer.rs lines 178-181), claim C2 -/

/-- The image count requested by `create_swapchain`:
`3.max(surface_capabilities.min_image_count).min(surface_capabilities.max_image_count)`
applied verbatim. -/
def swapchain_image_count_request (minImageCount maxImageCount : Nat) : Nat :=
  Nat.min (Nat.max 3 minImageCount) maxImageCount

/-- Modelled from the spec words, for comparison: clamp 3 into the
reported range, where a reported maximum of 0 means unbounded and applies
no upper clamp. -/
def specImageCountPolicy (minImageCount maxImageCount : Nat) : Nat :=
  if maxImageCount = 0 then Nat.max 3 minImageCount
  else Nat.min (Nat.max 3 minImageCount) maxImageCount

/-- C2 (code bug): the request agrees with the claimed policy at
(min 2, max 8) and (min 4, max 4) but computes 0 at (min 1, max 0): the
`.min(max_image_count)` clamp is applied even when the surface reports
`max_image_count = 0`, the underlying API encoding of "no upper bound".
A swapchain request of 0 images is invalid in the underlying API, so the
claimed policy is the evident intent and the unconditional clamp a slip. -/
theorem C2_image_count_policy_bug :
    swapchain_image_count_request 2 8 = 3
    ∧ swapchain_image_count_request 4 4 = 4
    ∧ swapchain_image_count_request 1 0 = 0
    ∧ specImageCountPolicy 1 0 = 3
    ∧ swapchain_image_count_request 1 0 ≠ specImageCountPolicy 1 0 := by
  decide

/-! ## Swapchain Manager: `create_swapchain` (renderer.rs lines 162-218) -/

/-- The formats the embedding distinguishes: the fixed view format of the
source plus representative other values. -/
inductive VkFormat where
  | B8G8R8A8_UNORM
  | B8G8R8A8_SRGB
  | R8G8B8A8_UNORM
  | OTHER_FORMAT
  deriving DecidableEq

/-- One entry of the supported-surface-formats list. -/
structure SurfaceFormat where
  format : VkFormat
  color_space : Nat
  deriving DecidableEq

structure Extent2D where
  width : Nat
  height : Nat
  deriving DecidableEq

structure Offset2D where
  x : Int
  y : Int
  deriving DecidableEq

structure Rect2D where
  offset : Offset2D
  extent : Extent2D
  deriving DecidableEq

/-- The fields of `vk::SurfaceCapabilitiesKHR` read by the source. -/
structure SurfaceCapabilities where
  min_image_count : Nat
  max_image_count : Nat
  current_extent : Extent2D
  current_transform : Nat
  deriving DecidableEq

structure ImageSubresourceRange where
  aspect_color : Bool
  base_mip_level : Nat
  level_count : Nat
  base_array_layer : Nat
  layer_count : Nat
  deriving DecidableEq

inductive ImageViewType where
  | TYPE_1D
  | TYPE_2D
  | TYPE_3D
  deriving DecidableEq

structure ImageViewCreateInfo where
  image : Image
  view_type : ImageViewType
  format : VkFormat
  subresource_range : ImageSubresourceRange
  deriving DecidableEq

inductive SharingMode where
  | EXCLUSIVE
  | CONCURRENT
  deriving DecidableEq

inductive PresentModeKHR where
  | FIFO
  | MAILBOX
  | IMMEDIATE
  deriving DecidableEq

/-- The fields of `vk::SwapchainCreateInfoKHR` set by the source builder
(usage is always COLOR_ATTACHMENT and composite alpha always OPAQUE, so
those constants are not carried). -/
structure SwapchainCreateInfo where
  min_image_count : Nat
  image_format : VkFormat
  image_color_space : Nat
  image_extent : Extent2D
  image_array_layers : Nat
  sharing_mode : SharingMode
  queue_family_indices_list : List Nat
  pre_transform : Nat
  present_mode : PresentModeKHR
  deriving DecidableEq

inductive SemId where
  | renderSem
  | presentSem
  deriving DecidableEq

/-- Observable native calls issued by the embedded functions (the create
calls of the swapchain view loop and the destroy calls of teardown). -/
inductive VkAction where
  | createImageViewCall (info : ImageViewCreateInfo)
  | deviceWaitIdle
  | destroySemaphoreCall (s : SemId)
  | destroyFenceCall
  | destroyCommandPoolCall
  | destroyImageViewCall (v : ImageView)
  | destroySwapchainCall
  | destroyDeviceCall
  | destroySurfaceCall
  | destroyInstanceCall
  deriving DecidableEq

def VkAction.isDestroy : VkAction → Bool
  | .destroySemaphoreCall _ => true
  | .destroyFenceCall => true
  | .destroyCommandPoolCall => true
  | .destroyImageViewCall _ => true
  | .destroySwapchainCall => true
  | .destroyDeviceCall => true
  | .destroySurfaceCall => true
  | .destroyInstanceCall => true
  | .createImageViewCall _ => false
  | .deviceWaitIdle => false

def isErrOutcome {ε α : Type} : RustOutcome ε α → Bool
  | .err _ => true
  | .ok _ => false
  | .panicked => false

/-- The oracle for the native calls `create_swapchain` makes, in source
order: capability query, format query, swapchain creation, image
enumeration, and the per-image view creation. -/
structure SwapchainApi where
  surface_capabilities_result : Except VkErr SurfaceCapabilities
  surface_formats_result : Except VkErr (List SurfaceFormat)
  create_swapchain_result : Except VkErr Nat
  get_swapchain_images_result : Except VkErr (List Image)
  create_image_view_result : ImageViewCreateInfo → Except VkErr ImageView

/-- The per-image view description built in the map closure
(renderer.rs lines 197-208): 2D view, fixed `B8G8R8A8_UNORM` format, full
single mip level and single array layer. -/
def image_view_create_info_for (image : Image) : ImageViewCreateInfo :=
  { image := image,
    view_type := ImageViewType.TYPE_2D,
    format := VkFormat.B8G8R8A8_UNORM,
    subresource_range :=
      { aspect_color := true, base_mip_level := 0, level_count := 1,
        base_array_layer := 0, layer_count := 1 } }

/-- The `map(...).collect()` over the swapchain images: each view
creation result is unwrapped, so the first failing creation aborts the
process (`none`); no later create is attempted and nothing already
created is destroyed. Also returns the list of create calls issued. -/
def createImageViews (api : SwapchainApi) :
    List Image → Option (List ImageView) × List VkAction
  | [] => (some [], [])
  | img :: rest =>
    match api.create_image_view_result (image_view_create_info_for img) with
    | .error _ =>
      (none, [VkAction.createImageViewCall (image_view_create_info_for img)])
    | .ok v =>
      ((createImageViews api rest).1.map (fun vs => v :: vs),
       VkAction.createImageViewCall (image_view_create_info_for img)
         :: (createImageViews api rest).2)

/-- What the Rust `create_swapchain` returns on success (the loader is a
function table and is not carried; the built create info is exposed so
that the requested parameters can be stated). -/
structure SwapchainResult where
  create_info : SwapchainCreateInfo
  swapchain : Nat
  images : List Image
  image_views : List ImageView
  deriving DecidableEq

/-- `create_swapchain`, statement by statement: query capabilities (`?`),
query formats (`?`), read the first format (`unwrap`: empty list panics),
build the create info, create the swapchain (`?`), enumerate its images
(`?`), then build one view per image (each `unwrap`ped). -/
def create_swapchain (api : SwapchainApi) (graphics_index : Nat) :
    RustOutcome VkErr SwapchainResult × List VkAction :=
  match api.surface_capabilities_result with
  | .error e => (.err e, [])
  | .ok caps =>
    match api.surface_formats_result with
    | .error e => (.err e, [])
    | .ok formats =>
      match formats with
      | [] => (.panicked, [])
      | fmt0 :: _ =>
        match api.create_swapchain_result with
        | .error e => (.err e, [])
        | .ok sc =>
          match api.get_swapchain_images_result with
          | .error e => (.err e, [])
          | .ok images =>
            match createImageViews api images with
            | (none, tr) => (.panicked, tr)
            | (some views, tr) =>
              (.ok { create_info :=
                       { min_image_count :=
                           swapchain_image_count_request caps.min_image_count
                             caps.max_image_count,
                         image_format := fmt0.format,
                         image_color_space := fmt0.color_space,
                         image_extent := caps.current_extent,
                         image_array_layers := 1,
                         sharing_mode := SharingMode.EXCLUSIVE,
                         queue_family_indices_list := [graphics_index],
                         pre_transform := caps.current_transform,
                         present_mode := PresentModeKHR.FIFO },
                     swapchain := sc,
                     images := images,
                     image_views := views },
               tr)

/-- Every call issued by the view loop is a create call for the fixed
per-image description. -/
theorem createImageViews_actions_shape (api : SwapchainApi) :
    ∀ (imgs : List Image) (a : VkAction), a ∈ (createImageViews api imgs).2 →
      ∃ img, a = VkAction.createImageViewCall (image_view_create_info_for img) := by
  intro imgs
  induction imgs with
  | nil => intro a ha; simp [createImageViews] at ha
  | cons img rest ih =>
    intro a ha
    simp only [createImageViews] at ha
    cases h : api.create_image_view_result (image_view_create_info_for img) with
    | error e =>
      rw [h] at ha
      simp at ha
      exact ⟨img, ha⟩
    | ok v =>
      rw [h] at ha
      simp at ha
      rcases ha with ha | ha
      · exact ⟨img, ha⟩
      · exact ih a ha

/-- Every action of the `create_swapchain` trace is a view-create call for
the fixed per-image description. -/
theorem create_swapchain_trace_shape (api : SwapchainApi) (gi : Nat) :
    ∀ a ∈ (create_swapchain api gi).2,
      ∃ img, a = VkAction.createImageViewCall (image_view_create_info_for img) := by
  intro a ha
  unfold create_swapchain at ha
  split at ha
  · simp at ha
  · split at ha
    · simp at ha
    · split at ha
      · simp at ha
      · split at ha
        · simp at ha
        · split at ha
          · simp at ha
          · split at ha
            · rename_i heq
              exact createImageViews_actions_shape api _ a (by rw [heq]; exact ha)
            · rename_i heq
              exact createImageViews_actions_shape api _ a (by rw [heq]; exact ha)

/-- The action trace of `create_swapchain` contains no destroy call. -/
theorem create_swapchain_no_destroy (api : SwapchainApi) (gi : Nat) :
    ∀ a ∈ (create_swapchain api gi).2, a.isDestroy = false := by
  intro a ha
  obtain ⟨img, rfl⟩ := create_swapchain_trace_shape api gi a ha
  rfl

/-! ### Claim C3: error behaviour of swapchain construction -/

/-- An oracle where everything succeeds except per-image view creation. -/
def apiViewFailure : SwapchainApi :=
  { surface_capabilities_result := .ok
      { min_image_count := 1, max_image_count := 3,
        current_extent := { width := 800, height := 600 }, current_transform := 0 },
    surface_formats_result := .ok [{ format := VkFormat.B8G8R8A8_SRGB, color_space := 0 }],
    create_swapchain_result := .ok 1,
    get_swapchain_images_result := .ok [10, 11, 12],
    create_image_view_result := fun _ => .error VkErr.DEVICE_LOST }

/-- C3 (counterexample): when a per-image view creation fails, the
operation panics (the `unwrap` at renderer.rs line 209) instead of
returning an error to the caller, so the claim that every underlying API
failure is returned as an error is false. -/
theorem C3_view_failure_panics_counterexample :
    (create_swapchain apiViewFailure 0).1 = RustOutcome.panicked
    ∧ isErrOutcome (create_swapchain apiViewFailure 0).1 = false := by
  exact ⟨rfl, rfl⟩

/-- C3 (amended): failures of the capability query, the format query,
swapchain creation, or image enumeration are returned as errors to the
caller; a failure while creating any per-image view terminates the
process (panic) instead; in every case no destroy call is issued, so
partially created views are never cleaned up incrementally. -/
theorem C3_error_propagation_amended (api : SwapchainApi) (gi : Nat) :
    (∀ e, api.surface_capabilities_result = .error e →
        (create_swapchain api gi).1 = .err e)
    ∧ (∀ caps e, api.surface_capabilities_result = .ok caps →
        api.surface_formats_result = .error e →
        (create_swapchain api gi).1 = .err e)
    ∧ (∀ caps fmt0 fmts e, api.surface_capabilities_result = .ok caps →
        api.surface_formats_result = .ok (fmt0 :: fmts) →
        api.create_swapchain_result = .error e →
        (create_swapchain api gi).1 = .err e)
    ∧ (∀ caps fmt0 fmts sc e, api.surface_capabilities_result = .ok caps →
        api.surface_formats_result = .ok (fmt0 :: fmts) →
        api.create_swapchain_result = .ok sc →
        api.get_swapchain_images_result = .error e →
        (create_swapchain api gi).1 = .err e)
    ∧ (∀ caps fmt0 fmts sc images, api.surface_capabilities_result = .ok caps →
        api.surface_formats_result = .ok (fmt0 :: fmts) →
        api.create_swapchain_result = .ok sc →
        api.get_swapchain_images_result = .ok images →
        (createImageViews api images).1 = none →
        (create_swapchain api gi).1 = RustOutcome.panicked)
    ∧ (∀ a ∈ (create_swapchain api gi).2, a.isDestroy = false) := by
  refine ⟨?_, ?_, ?_, ?_, ?_, create_swapchain_no_destroy api gi⟩
  · intro e h1
    simp [create_swapchain, h1]
  · intro caps e h1 h2
    simp [create_swapchain, h1, h2]
  · intro caps fmt0 fmts e h1 h2 h3
    simp [create_swapchain, h1, h2, h3]
  · intro caps fmt0 fmts sc e h1 h2 h3 h4
    simp [create_swapchain, h1, h2, h3, h4]
  · intro caps fmt0 fmts sc images h1 h2 h3 h4 hv
    cases hcv : createImageViews api images with
    | mk o tr0 =>
      rw [hcv] at hv
      simp only at hv
      subst hv
      simp [create_swapchain, h1, h2, h3, h4, hcv]

/-- An oracle whose capability query fails. -/
def apiCapsFailure : SwapchainApi :=
  { surface_capabilities_result := .error VkErr.SURFACE_LOST,
    surface_formats_result := .ok [],
    create_swapchain_result := .ok 0,
    get_swapchain_images_result := .ok [],
    create_image_view_result := fun _ => .ok 0 }

/-- Witness for C3 (amended) at a concrete input: a failing capability
query is returned as that error. -/
theorem C3_error_propagation_amended_witness :
    (create_swapchain apiCapsFailure 0).1 = RustOutcome.err VkErr.SURFACE_LOST :=
  (C3_error_propagation_amended apiCapsFailure 0).1 VkErr.SURFACE_LOST rfl

/-! ### Claim C10: per-view format versus swapchain format -/

/-- C10: for every successful swapchain creation, every view-create call
issued carries the fixed `B8G8R8A8_UNORM` format, while the swapchain
itself was created with the format of the first supported-formats entry,
whatever that is. -/
theorem C10_view_format_fixed (api : SwapchainApi) (gi : Nat)
    (res : SwapchainResult) (tr : List VkAction)
    (h : create_swapchain api gi = (.ok res, tr)) :
    (∀ a ∈ tr, ∀ info, a = VkAction.createImageViewCall info →
        info.format = VkFormat.B8G8R8A8_UNORM)
    ∧ ∃ fmt0 rest, api.surface_formats_result = .ok (fmt0 :: rest)
        ∧ res.create_info.image_format = fmt0.format := by
  constructor
  · intro a ha info hinfo
    have ha2 : a ∈ (create_swapchain api gi).2 := by rw [h]; exact ha
    obtain ⟨img, heq⟩ := create_swapchain_trace_shape api gi a ha2
    rw [heq] at hinfo
    cases hinfo
    rfl
  · unfold create_swapchain at h
    split at h
    · exact absurd h (by simp)
    · rename_i caps hcaps
      split at h
      · exact absurd h (by simp)
      · rename_i formats hformats
        split at h
        · exact absurd h (by simp)
        · rename_i fmt0 fmts
          split at h
          · exact absurd h (by simp)
          · rename_i sc hsc
            split at h
            · exact absurd h (by simp)
            · rename_i images himages
              split at h
              · exact absurd h (by simp)
              · rename_i views tr0 hviews
                rw [Prod.mk.injEq] at h
                obtain ⟨h1, h2⟩ := h
                cases h1
                exact ⟨fmt0, fmts, hformats, rfl⟩

/-- An all-success oracle whose first supported format differs from the
fixed per-view format. -/
def apiC10 : SwapchainApi :=
  { surface_capabilities_result := .ok
      { min_image_count := 2, max_image_count := 8,
        current_extent := { width := 1024, height := 768 }, current_transform := 0 },
    surface_formats_result := .ok [{ format := VkFormat.B8G8R8A8_SRGB, color_space := 0 }],
    create_swapchain_result := .ok 1,
    get_swapchain_images_result := .ok [10, 11],
    create_image_view_result := fun info => .ok (info.image + 100) }

def resC10 : SwapchainResult :=
  { create_info :=
      { min_image_count := 3,
        image_format := VkFormat.B8G8R8A8_SRGB,
        image_color_space := 0,
        image_extent := { width := 1024, height := 768 },
        image_array_layers := 1,
        sharing_mode := SharingMode.EXCLUSIVE,
        queue_family_indices_list := [0],
        pre_transform := 0,
        present_mode := PresentModeKHR.FIFO },
    swapchain := 1,
    images := [10, 11],
    image_views := [110, 111] }

def trC10 : List VkAction :=
  [VkAction.createImageViewCall (image_view_create_info_for 10),
   VkAction.createImageViewCall (image_view_create_info_for 11)]

/-- Witness for C10 at a concrete successful creation. -/
theorem C10_view_format_fixed_witness :
    (∀ a ∈ trC10, ∀ info, a = VkAction.createImageViewCall info →
        info.format = VkFormat.B8G8R8A8_UNORM)
    ∧ ∃ fmt0 rest, apiC10.surface_formats_result = .ok (fmt0 :: rest)
        ∧ resC10.create_info.image_format = fmt0.format :=
  C10_view_format_fixed apiC10 0 resC10 trC10 (by decide)

/-! ## Frame Engine: `Renderer::render` (renderer.rs lines 331-484) -/

/-- Oracle for the native calls one `render()` invocation makes, in
source order. A fence or acquire wait that exceeds the 1-second budget
surfaces as `.error .TIMEOUT` (the underlying API timeout result,
propagated through `?`). -/
structure RenderEnv where
  wait_for_fences_result : Except VkErr Unit
  reset_fences_result : Except VkErr Unit
  acquire_next_image_result : Except VkErr (Nat × Bool)
  reset_command_buffer_result : Except VkErr Unit
  begin_command_buffer_result : Except VkErr Unit
  end_command_buffer_result : Except VkErr Unit
  queue_submit_result : Except VkErr Unit
  queue_present_result : Except VkErr Bool

/-- The renderer fields the render cycle reads or writes. `frame_number`
is the only field any method mutates. -/
structure RendererState where
  swapchain_images : List Image
  swapchain_image_views : List ImageView
  frame_number : Nat
  deriving DecidableEq

/-- The observable parameters recorded into the command buffer by one
successful cycle (barrier target, render area of the clear pass, colour
attachment view). -/
structure RecordedFrame where
  image_index : Nat
  barrier_image : Image
  render_area : Rect2D
  color_attachment_view : ImageView
  deriving DecidableEq

/-- `Renderer::render`, statement by statement: wait on the fence (`?`),
reset it (`?`), acquire the next image (`?`), reset and begin the command
buffer (`?`), index the image and view arrays (panic when out of
bounds; lines 373, 402 and 430 all use the same index), record the
barriers and the clear pass with its fixed 800 by 600 render area, end
the buffer (`?`), submit (`?`), present (`?`), and only then increment
`frame_number`. -/
def render (env : RenderEnv) (s : RendererState) :
    RustOutcome VkErr RecordedFrame × RendererState :=
  match env.wait_for_fences_result with
  | .error e => (.err e, s)
  | .ok _ =>
  match env.reset_fences_result with
  | .error e => (.err e, s)
  | .ok _ =>
  match env.acquire_next_image_result with
  | .error e => (.err e, s)
  | .ok (swapchain_image_index, _) =>
  match env.reset_command_buffer_result with
  | .error e => (.err e, s)
  | .ok _ =>
  match env.begin_command_buffer_result with
  | .error e => (.err e, s)
  | .ok _ =>
  match s.swapchain_images.get? swapchain_image_index with
  | none => (.panicked, s)
  | some img =>
  match s.swapchain_image_views.get? swapchain_image_index with
  | none => (.panicked, s)
  | some view =>
  match env.end_command_buffer_result with
  | .error e => (.err e, s)
  | .ok _ =>
  match env.queue_submit_result with
  | .error e => (.err e, s)
  | .ok _ =>
  match env.queue_present_result with
  | .error e => (.err e, s)
  | .ok _ =>
    (.ok { image_index := swapchain_image_index,
           barrier_image := img,
           render_area :=
             { offset := { x := 0, y := 0 },
               extent := { width := 800, height := 600 } },
           color_attachment_view := view },
     { s with frame_number := s.frame_number + 1 })

/-! ## Construction: `Renderer::new` (renderer.rs lines 247-329) -/

/-- Oracle for the native calls `Renderer::new` makes, in source order
(the two `get_device_queue` calls are infallible and carry no data the
claims need; the shader modules are created and immediately destroyed). -/
structure NewEnv where
  create_instance_result : Except VkErr Unit
  create_surface_result : Except VkErr Unit
  enumerate_physical_devices_result :
    Except VkErr (List (PhysicalDevice × PhysicalDeviceProperties))
  queue_families : List QueueFamilyProperties
  present_support : Nat → Bool
  create_device_result : Except VkErr Unit
  swapchain_api : SwapchainApi
  create_command_pool_result : Except VkErr Unit
  allocate_command_buffers_result : Except VkErr (List Nat)
  create_present_semaphore_result : Except VkErr Unit
  create_render_semaphore_result : Except VkErr Unit
  create_fence_result : Except VkErr Unit
  create_vert_shader_result : Except VkErr Unit
  create_frag_shader_result : Except VkErr Unit

/-- `Renderer::new`: instance, surface, device selection, queue-family
resolution (both `unwrap`s inside), logical device, swapchain, command
pool, command buffer (`[0]` indexing), the two semaphores, the fence and
the two throwaway shader modules; the struct literal then initialises
`frame_number` to 0. -/
def Renderer.new (env : NewEnv) : RustOutcome VkErr RendererState :=
  match env.create_instance_result with
  | .error e => .err e
  | .ok _ =>
  match env.create_surface_result with
  | .error e => .err e
  | .ok _ =>
  match find_physical_device env.enumerate_physical_devices_result with
  | .err e => .err e
  | .panicked => .panicked
  | .ok _pd =>
  match find_queue_family_indices env.present_support env.queue_families with
  | none => .panicked
  | some qfi =>
  match env.create_device_result with
  | .error e => .err e
  | .ok _ =>
  match create_swapchain env.swapchain_api qfi.graphics with
  | (.err e, _) => .err e
  | (.panicked, _) => .panicked
  | (.ok scres, _) =>
  match env.create_command_pool_result with
  | .error e => .err e
  | .ok _ =>
  match env.allocate_command_buffers_result with
  | .error e => .err e
  | .ok bufs =>
  match bufs.get? 0 with
  | none => .panicked
  | some _cb =>
  match env.create_present_semaphore_result with
  | .error e => .err e
  | .ok _ =>
  match env.create_render_semaphore_result with
  | .error e => .err e
  | .ok _ =>
  match env.create_fence_result with
  | .error e => .err e
  | .ok _ =>
  match env.create_vert_shader_result with
  | .error e => .err e
  | .ok _ =>
  match env.create_frag_shader_result with
  | .error e => .err e
  | .ok _ =>
    .ok { swapchain_images := scres.images,
          swapchain_image_views := scres.image_views,
          frame_number := 0 }

/-- Run a sequence of render calls, succeeding only when every call
returns ok. -/
def runAllOk : RendererState → List RenderEnv → Option RendererState
  | s, [] => some s
  | s, env :: rest =>
    match render env s with
    | (.ok _, s2) => runAllOk s2 rest
    | _ => none

theorem new_frame_number_zero (env : NewEnv) (s0 : RendererState)
    (h : Renderer.new env = .ok s0) : s0.frame_number = 0 := by
  unfold Renderer.new at h
  repeat' split at h
  all_goals (cases h <;> rfl)

theorem render_ok_frame_number (env : RenderEnv) (s : RendererState)
    (rec : RecordedFrame) (s2 : RendererState)
    (h : render env s = (.ok rec, s2)) :
    s2.frame_number = s.frame_number + 1 := by
  unfold render at h
  repeat' split at h
  all_goals
    rw [Prod.mk.injEq] at h
    obtain ⟨h1, h2⟩ := h
    cases h1 <;> subst h2 <;> rfl

theorem runAllOk_frame_number :
    ∀ (envs : List RenderEnv) (s s2 : RendererState),
      runAllOk s envs = some s2 →
      s2.frame_number = s.frame_number + envs.length := by
  intro envs
  induction envs with
  | nil =>
    intro s s2 h
    simp only [runAllOk, Option.some.injEq] at h
    subst h
    rfl
  | cons env rest ih =>
    intro s s2 h
    simp only [runAllOk] at h
    cases hr : render env s with
    | mk out s1 =>
      rw [hr] at h
      cases out with
      | ok rec =>
        have hs2 := ih s1 s2 h
        rw [hs2, render_ok_frame_number env s rec s1 hr, List.length_cons]
        omega
      | err e => exact Option.noConfusion h
      | panicked => exact Option.noConfusion h

/-! ### Claims C5, C6, C9 -/

/-- C5: a render call whose image-acquire step fails with the timeout
result returns that timeout error and leaves `frame_number` unchanged
(the increment is the last statement of the method and is never reached
on the early-return path). -/
theorem C5_acquire_timeout (env : RenderEnv) (s : RendererState)
    (h1 : env.wait_for_fences_result = .ok ())
    (h2 : env.reset_fences_result = .ok ())
    (h3 : env.acquire_next_image_result = .error VkErr.TIMEOUT) :
    (render env s).1 = .err VkErr.TIMEOUT
    ∧ (render env s).2.frame_number = s.frame_number := by
  simp [render, h1, h2, h3]

def envC5 : RenderEnv :=
  { wait_for_fences_result := .ok (),
    reset_fences_result := .ok (),
    acquire_next_image_result := .error VkErr.TIMEOUT,
    reset_command_buffer_result := .ok (),
    begin_command_buffer_result := .ok (),
    end_command_buffer_result := .ok (),
    queue_submit_result := .ok (),
    queue_present_result := .ok false }

def sC5 : RendererState :=
  { swapchain_images := [10], swapchain_image_views := [20], frame_number := 5 }

/-- Witness for C5 at a concrete input. -/
theorem C5_acquire_timeout_witness :
    (render envC5 sC5).1 = RustOutcome.err VkErr.TIMEOUT
    ∧ (render envC5 sC5).2.frame_number = sC5.frame_number :=
  C5_acquire_timeout envC5 sC5 rfl rfl rfl

/-- C6: `frame_number` is 0 after construction and equals N after N
successful render calls. -/
theorem C6_frame_counter (nenv : NewEnv) (envs : List RenderEnv)
    (s0 sN : RendererState)
    (h0 : Renderer.new nenv = .ok s0)
    (hN : runAllOk s0 envs = some sN) :
    sN.frame_number = envs.length := by
  rw [runAllOk_frame_number envs s0 sN hN, new_frame_number_zero nenv s0 h0]
  exact Nat.zero_add _

def nenvC6 : NewEnv :=
  { create_instance_result := .ok (),
    create_surface_result := .ok (),
    enumerate_physical_devices_result :=
      .ok [(3, { device_type := PhysicalDeviceType.DISCRETE_GPU })],
    queue_families :=
      [{ queue_count := 1, queue_flags := { graphics := true, transfer := true } }],
    present_support := fun _ => true,
    create_device_result := .ok (),
    swapchain_api :=
      { surface_capabilities_result := .ok
          { min_image_count := 2, max_image_count := 8,
            current_extent := { width := 640, height := 480 }, current_transform := 0 },
        surface_formats_result := .ok [{ format := VkFormat.B8G8R8A8_UNORM, color_space := 0 }],
        create_swapchain_result := .ok 1,
        get_swapchain_images_result := .ok [10],
        create_image_view_result := fun info => .ok (info.image + 100) },
    create_command_pool_result := .ok (),
    allocate_command_buffers_result := .ok [0],
    create_present_semaphore_result := .ok (),
    create_render_semaphore_result := .ok (),
    create_fence_result := .ok (),
    create_vert_shader_result := .ok (),
    create_frag_shader_result := .ok () }

def s0C6 : RendererState :=
  { swapchain_images := [10], swapchain_image_views := [110], frame_number := 0 }

def envOkC6 : RenderEnv :=
  { wait_for_fences_result := .ok (),
    reset_fences_result := .ok (),
    acquire_next_image_result := .ok (0, false),
    reset_command_buffer_result := .ok (),
    begin_command_buffer_result := .ok (),
    end_command_buffer_result := .ok (),
    queue_submit_result := .ok (),
    queue_present_result := .ok false }

def sNC6 : RendererState :=
  { swapchain_images := [10], swapchain_image_views := [110], frame_number := 2 }

/-- Witness for C6: a successful construction followed by two successful
render calls ends at `frame_number = 2`. -/
theorem C6_frame_counter_witness :
    sNC6.frame_number = [envOkC6, envOkC6].length :=
  C6_frame_counter nenvC6 [envOkC6, envOkC6] s0C6 sNC6 (by decide) (by decide)

/-- C9: every successful render call records the fixed render area
(width 800, height 600, offset (0,0)) for the clear pass, for every state
and environment — in particular independently of any surface or
swapchain extent. -/
theorem C9_render_area_fixed (env : RenderEnv) (s : RendererState)
    (rec : RecordedFrame) (s2 : RendererState)
    (h : render env s = (.ok rec, s2)) :
    rec.render_area =
      { offset := { x := 0, y := 0 }, extent := { width := 800, height := 600 } } := by
  unfold render at h
  repeat' split at h
  all_goals
    rw [Prod.mk.injEq] at h
    obtain ⟨h1, h2⟩ := h
    cases h1 <;> subst h2 <;> rfl

def envC9 : RenderEnv :=
  { wait_for_fences_result := .ok (),
    reset_fences_result := .ok (),
    acquire_next_image_result := .ok (0, false),
    reset_command_buffer_result := .ok (),
    begin_command_buffer_result := .ok (),
    end_command_buffer_result := .ok (),
    queue_submit_result := .ok (),
    queue_present_result := .ok false }

def sC9 : RendererState :=
  { swapchain_images := [7], swapchain_image_views := [8], frame_number := 0 }

def recC9 : RecordedFrame :=
  { image_index := 0,
    barrier_image := 7,
    render_area := { offset := { x := 0, y := 0 }, extent := { width := 800, height := 600 } },
    color_attachment_view := 8 }

def s2C9 : RendererState :=
  { swapchain_images := [7], swapchain_image_views := [8], frame_number := 1 }

/-- Witness for C9 at a concrete successful render call. -/
theorem C9_render_area_fixed_witness :
    recC9.render_area =
      { offset := { x := 0, y := 0 }, extent := { width := 800, height := 600 } } :=
  C9_render_area_fixed envC9 sC9 recC9 s2C9 (by decide)

/-! ## Teardown: `impl Drop for Renderer` (renderer.rs lines 487-510), claim C8 -/

/-- The destructor: `device_wait_idle().unwrap()` first (a failed wait
panics before any destroy), then the destroy calls in source order. The
Bool records whether the destructor ran to completion. -/
def renderer_drop (wait_idle_result : Except VkErr Unit) (views : List ImageView) :
    List VkAction × Bool :=
  match wait_idle_result with
  | .error _ => ([VkAction.deviceWaitIdle], false)
  | .ok _ =>
    (VkAction.deviceWaitIdle
      :: VkAction.destroySemaphoreCall SemId.renderSem
      :: VkAction.destroySemaphoreCall SemId.presentSem
      :: VkAction.destroyFenceCall
      :: VkAction.destroyCommandPoolCall
      :: (views.map VkAction.destroyImageViewCall
          ++ [VkAction.destroySwapchainCall, VkAction.destroyDeviceCall,
              VkAction.destroySurfaceCall, VkAction.destroyInstanceCall]),
     true)

/-- C8: teardown always begins by blocking on device idle, and (when the
idle wait succeeds) destroys the owned objects in the fixed order:
semaphores and fence, then command pool, then each image view, then the
swapchain, then the logical device, then the surface, then the
instance. -/
theorem C8_teardown_order (w : Except VkErr Unit) (views : List ImageView) :
    (renderer_drop w views).1.head? = some VkAction.deviceWaitIdle
    ∧ (renderer_drop (.ok ()) views).1
      = [VkAction.deviceWaitIdle,
         VkAction.destroySemaphoreCall SemId.renderSem,
         VkAction.destroySemaphoreCall SemId.presentSem,
         VkAction.destroyFenceCall,
         VkAction.destroyCommandPoolCall]
        ++ views.map VkAction.destroyImageViewCall
        ++ [VkAction.destroySwapchainCall, VkAction.destroyDeviceCall,
            VkAction.destroySurfaceCall, VkAction.destroyInstanceCall] := by
  constructor
  · cases w <;> rfl
  · simp [renderer_drop]

end CharlieRenderer
